import Mathlib

/-!
Shallow embedding of `src/packages/astro/src/core/build/generate.ts`
(the static page-generation orchestrator) and proofs about its claims.

Modelling conventions:
  * JavaScript strings are Lean `String`s (character sequences; the paths
    involved are ASCII, where JS UTF-16 code-unit indexing and Lean character
    indexing agree).
  * `Map<string, T>` is an association list `List (String × T)` with
    `List.lookup`.
  * `async` functions that can reject are `Except String _` values; a thrown
    exception is `Except.error`, `try`/`catch` is a `match` on that value.
    External collaborators (the render engine, the endpoint runner, the
    filesystem, module loading) are passed in as `Except`-valued parameters.
  * Mutable shared state (the `linkIds` array reversed in place, the
    `opts.pageNames` array) is threaded explicitly: each call takes the
    current content and returns the content after the call.
-/

/-- Line 25 of generate.ts: `const MAX_CONCURRENT_RENDERS = 1`. -/
def MAX_CONCURRENT_RENDERS : Nat := 1

/-- Lines 46-66 of generate.ts, the body of the `throttle` generator loop.
`tmp` is the accumulator array, `i` the counter.  Each loop iteration pushes
the path and then tests `i === max`: on a hit it yields the accumulated batch
(the consumer reads the array before the generator resumes and empties it,
so the yielded value is modelled as the content at yield time) and resets
`tmp`/`i`; otherwise it increments `i`. -/
def throttleAux (max : Nat) : List String → List String → Nat → List (List String)
  | [], tmp, _ => if tmp.length ≠ 0 then [tmp] else []
  | path :: rest, tmp, i =>
    if i = max then (tmp ++ [path]) :: throttleAux max rest [] 0
    else throttleAux max rest (tmp ++ [path]) (i + 1)

/-- Lines 46-66 of generate.ts: `function* throttle(max, inPaths)`, as the
list of batches it yields, in order, as consumed single-pass. -/
def throttle (max : Nat) (inPaths : List String) : List (List String) :=
  throttleAux max inPaths [] 0

/-- The character map of `facadeId.replace(/\//g, '\\')` (line 41):
a forward slash becomes a backslash, any other character is unchanged. -/
def swapChar (c : Char) : Char := if c = '/' then '\\' else c

/-- Line 41 of generate.ts: `facadeId.replace(/\//g, '\\')` — the global
single-character replacement is a character-wise map. -/
def sepSwap (s : String) : String := ⟨s.data.map swapChar⟩

/-- Lines 37-43 of generate.ts: `getByFacadeId`.  The JS `||` falls through
to the backslash lookup when the first lookup misses (`undefined`); at every
call site the stored values are objects, arrays or non-empty strings, all
truthy, so a successful first lookup short-circuits. -/
def getByFacadeId {T : Type} (facadeId : String) (map : List (String × T)) : Option T :=
  match List.lookup facadeId map with
  | some v => some v
  | none => List.lookup (sepSwap facadeId) map

/-- Modelled from the spec: `prependForwardSlash` (imported from
`core/path.js`, which is not among the given sources).  Section 4.1 of the
spec says the classifier normalizes the identifier to a "root-relative,
forward-slash-prefixed form", so this returns the string unchanged when it
already starts with `/` and otherwise prepends `/`. -/
def prependForwardSlash (path : String) : String :=
  if path.data.head? = some '/' then path else "/" ++ path

/-- The project-root configuration the classifier needs:
`fileURLToPath(astroConfig.projectRoot)` as a plain path string. -/
structure AstroConfigModel where
  projectRootPath : String
deriving DecidableEq

/-- Lines 70-72 of generate.ts: `rootRelativeFacadeId` slices off the
project-root prefix by its length (`facadeId.slice(root.length)`). -/
def rootRelativeFacadeId (facadeId : String) (config : AstroConfigModel) : String :=
  ⟨facadeId.data.drop config.projectRootPath.data.length⟩

/-- One element of the Rollup `result.output` array: a chunk (with its
optional `facadeModuleId`) or a non-chunk asset. -/
inductive RollupOutputItem where
  | chunk (fileName : String) (facadeModuleId : Option String)
  | asset (fileName : String)
deriving DecidableEq

/-- The per-build tables of `BuildInternals` used by this file. -/
structure BuildInternalsModel where
  entrySpecifierToBundleMap : List (String × String)
  facadeIdToAssetsMap : List (String × List String)
  facadeIdToHoistedEntryMap : List (String × String)

/-- Lines 75-85 of generate.ts: `chunkIsPage`.  Non-chunks and chunks with a
falsy (`null` or empty) `facadeModuleId` are rejected; otherwise the facade
identifier is made root-relative, `/`-prefixed, and membership in
`internals.entrySpecifierToBundleMap` decides. -/
def chunkIsPage (config : AstroConfigModel) (output : RollupOutputItem)
    (internals : BuildInternalsModel) : Bool :=
  match output with
  | RollupOutputItem.asset _ => false
  | RollupOutputItem.chunk _ none => false
  | RollupOutputItem.chunk _ (some fid) =>
    if fid = "" then false
    else (List.lookup (prependForwardSlash (rootRelativeFacadeId fid config))
            internals.entrySpecifierToBundleMap).isSome

/-- Split a path into its `/`-separated pieces (pieces may be empty here;
`splitSegs` filters the empty ones). -/
def splitSegsAux : List Char → List Char → List (List Char)
  | [], acc => [acc.reverse]
  | c :: cs, acc =>
    if c = '/' then acc.reverse :: splitSegsAux cs [] else splitSegsAux cs (c :: acc)

/-- The non-empty `/`-separated segments of a path string. -/
def splitSegs (s : String) : List (List Char) :=
  (splitSegsAux s.data []).filter (fun seg => !seg.isEmpty)

/-- Segment normalization of an absolute posix path: `.` is dropped, `..`
pops the previous segment (clamped at the root), other segments are kept. -/
def normAbs (segs : List (List Char)) : List (List Char) :=
  segs.foldl
    (fun acc seg =>
      if seg = ['.'] then acc
      else if seg = ['.', '.'] then acc.dropLast
      else acc ++ [seg]) []

/-- Node `path.posix.resolve` of a single argument, with the working
directory fixed at the root `/` (the build only ever resolves the
route pathname, which is `/`-rooted, and `'/' + hashedFilePath`, which is
absolute by construction), as a normalized absolute segment list. -/
def posixResolveRoot (s : String) : List (List Char) := normAbs (splitSegs s)

/-- The number of leading segments two absolute paths share. -/
def commonPrefixLen : List (List Char) → List (List Char) → Nat
  | a :: as, b :: bs => if a = b then commonPrefixLen as bs + 1 else 0
  | _, _ => 0

/-- Node `path.posix.relative(fromPath, toPath)` (line 222 of generate.ts
calls it as `npath.posix.relative(pathname, '/' + hashedFilePath)`):
resolve both paths, drop the common segment prefix, emit one `..` per
remaining `fromPath` segment followed by the remaining `toPath` segments,
joined with `/`. -/
def posixRelative (fromPath toPath : String) : String :=
  let f := posixResolveRoot fromPath
  let t := posixResolveRoot toPath
  let c := commonPrefixLen f t
  ⟨List.intercalate ['/'] (List.replicate (f.length - c) ['.', '.'] ++ t.drop c)⟩

/-- Lines 222-224 of generate.ts: `relPath[0] === '.' ? relPath :
'./' + relPath` — prefix `./` unless the relative path already starts with a
dot (for the empty string, `relPath[0]` is `undefined`, so `./` is
prefixed). -/
def fullyRelative (relPath : String) : String :=
  if relPath.data.head? = some '.' then relPath else "./" ++ relPath

/-- Lines 209-225 of generate.ts: the render-time `resolve(specifier)`
closure.  A specifier absent from `entrySpecifierToBundleMap` either hits the
reserved before-hydration name (inert placeholder) or throws; a present
specifier is resolved relative to `pathname` and made explicitly relative. -/
def resolve (entrySpecifierToBundleMap : List (String × String))
    (pathname specifier : String) : Except String String :=
  match List.lookup specifier entrySpecifierToBundleMap with
  | none =>
    if specifier = "astro:scripts/before-hydration.js" then
      Except.ok "data:text/javascript;charset=utf-8,//[no before-hydration script]"
    else
      Except.error ("Cannot find the built path for " ++ specifier)
  | some hashedFilePath =>
    Except.ok (fullyRelative (posixRelative pathname ("/" ++ hashedFilePath)))

/-- Whether a string begins with `./` or with `../` — the spec's notion of a
well-formed relative reference for claim C6. -/
def beginsWithRel (s : String) : Bool :=
  s.data.take 2 == ['.', '/'] || s.data.take 3 == ['.', '.', '/']

/-- The route kind of a page record (`pageData.route.type`). -/
inductive RouteType where
  | page
  | endpoint
deriving DecidableEq

/-- Lines 160-167 plus `PageBuildData`: the page metadata generatePath needs:
route kind, component, and the ordered concrete paths to render. -/
structure PageData where
  routeType : RouteType
  component : String
  paths : List String

/-- Result of `callEndpoint` (line 236): either a live `Response`-typed
result or a plain body payload. -/
inductive EndpointCallResult where
  | response
  | bodyPayload (body : String)
deriving DecidableEq

/-- Result of `render` (line 243): an html body, or anything else
(redirects etc., `result.type !== 'html'`). -/
inductive RenderCallResult where
  | html (body : String)
  | nonHtml
deriving DecidableEq

/-- Terminal state of one `generatePath` call, per section 4.4 of the spec:
a written body, a skipped redirect, or a failure caught, logged and
swallowed at the per-path boundary (lines 256-258). -/
inductive PathOutcome where
  | written (body : String)
  | skipped
  | reportedFailure (msg : String)
deriving DecidableEq

/-- What a successful `generatePath` call produced and left behind:
its terminal outcome, the id order handed to
`createLinkStylesheetElementSet`, the content of the shared `gopts.linkIds`
array after the call (line 185 reverses it in place), and the content of the
shared `opts.pageNames` array after the call. -/
structure PathCallResult where
  outcome : PathOutcome
  linksOrder : List String
  linkIds : List String
  pageNames : List String
deriving DecidableEq

/-- The external collaborators one path render interacts with, as fallible
calls.  `createElementSets` stands for lines 185-196
(`createLinkStylesheetElementSet`, `createModuleScriptElementWithSrcSet` and
the injected-script loop, which run before the `try` block);
`callEndpoint`/`render` stand for the dispatch at lines 236/243 (the
render-time `resolve` closure is embedded separately as `resolve`; its
failures surface here as `Except.error` results of `render`/`callEndpoint`);
`writeFile` stands for the `mkdir` + `writeFile` pair at lines 254-255;
`importModule` stands for the dynamic `import` at line 121. -/
structure RenderCollaborators where
  createElementSets : List String → Option String → Except String Unit
  callEndpoint : String → Except String EndpointCallResult
  render : String → Except String RenderCallResult
  writeFile : String → String → Except String Unit
  importModule : String → Except String Unit

/-- Lines 169-171 of generate.ts: `addPageName` pushes
`pathname.replace(/\/?$/, '/').replace(/^\//, '')` — ensure one trailing
slash, strip one leading slash. -/
def addPageName (pathname : String) : String :=
  let withSlash := if pathname.data.getLast? = some '/' then pathname else pathname ++ "/"
  if withSlash.data.head? = some '/' then ⟨withSlash.data.drop 1⟩ else withSlash

/-- Lines 234-250 of generate.ts: compute `body` inside the `try` block.
`Except.ok none` models the early `return` on a non-html render result
(redirects: nothing is written), `Except.error` a thrown exception. -/
def generatePathBody (routeType : RouteType) (pathname : String)
    (C : RenderCollaborators) : Except String (Option String) :=
  match routeType with
  | RouteType.endpoint =>
    match C.callEndpoint pathname with
    | Except.error e => Except.error e
    | Except.ok EndpointCallResult.response =>
      Except.error "Returning a Response from an endpoint is not supported in SSG mode."
    | Except.ok (EndpointCallResult.bodyPayload b) => Except.ok (some b)
  | RouteType.page =>
    match C.render pathname with
    | Except.error e => Except.error e
    | Except.ok RenderCallResult.nonHtml => Except.ok none
    | Except.ok (RenderCallResult.html b) => Except.ok (some b)

/-- Lines 198-255 of generate.ts: the whole `try` block of `generatePath` —
compute the body (or return early) and write the output file. -/
def generatePathTry (routeType : RouteType) (pathname : String)
    (C : RenderCollaborators) : Except String PathOutcome :=
  match generatePathBody routeType pathname C with
  | Except.error e => Except.error e
  | Except.ok none => Except.ok PathOutcome.skipped
  | Except.ok (some body) =>
    match C.writeFile pathname body with
    | Except.error e => Except.error e
    | Except.ok _ => Except.ok (PathOutcome.written body)

/-- Lines 173-259 of generate.ts: `generatePath`.  Before the `try` block it
pushes the page name (lines 178-180, `page` routes only), reverses the
shared `linkIds` array in place and hands the reversed order to
`createLinkStylesheetElementSet` (lines 185-196): a failure in that step is
not protected by the `try` at line 198 and therefore propagates
(`Except.error`).  Errors inside the `try` block are caught at line 256,
logged and swallowed (`PathOutcome.reportedFailure`).  (On the propagating
path JS has already mutated `pageNames`/`linkIds`; `Except.error` carries no
state, which no claim depends on.) -/
def generatePath (pathname : String) (routeType : RouteType) (linkIds : List String)
    (hoistedId : Option String) (C : RenderCollaborators) (pageNames : List String) :
    Except String PathCallResult :=
  match C.createElementSets linkIds.reverse hoistedId with
  | Except.error e => Except.error e
  | Except.ok _ =>
    match generatePathTry routeType pathname C with
    | Except.ok outcome =>
      Except.ok ⟨outcome, linkIds.reverse, linkIds.reverse,
        if routeType = RouteType.page then pageNames ++ [addPageName pathname] else pageNames⟩
    | Except.error e =>
      Except.ok ⟨PathOutcome.reportedFailure e, linkIds.reverse, linkIds.reverse,
        if routeType = RouteType.page then pageNames ++ [addPageName pathname] else pageNames⟩

/-- The inner loop of lines 137-142: render each path of one batch,
threading the shared `linkIds` and `pageNames` arrays; a rejected
`generatePath` promise rejects the whole page generation. -/
def goPaths (routeType : RouteType) (paths : List String) (linkIds : List String)
    (hoistedId : Option String) (C : RenderCollaborators) (pageNames : List String) :
    Except String (List String × List String) :=
  match paths with
  | [] => Except.ok (linkIds, pageNames)
  | p :: rest =>
    match generatePath p routeType linkIds hoistedId C pageNames with
    | Except.error e => Except.error e
    | Except.ok r => goPaths routeType rest r.linkIds hoistedId C r.pageNames

/-- Lines 137-157: iterate the batches yielded by `throttle`, awaiting each
batch before the next one starts. -/
def goBatches (routeType : RouteType) (batches : List (List String))
    (linkIds : List String) (hoistedId : Option String) (C : RenderCollaborators)
    (pageNames : List String) : Except String (List String × List String) :=
  match batches with
  | [] => Except.ok (linkIds, pageNames)
  | b :: bs =>
    match goPaths routeType b linkIds hoistedId C pageNames with
    | Except.error e => Except.error e
    | Except.ok lp => goBatches routeType bs lp.1 hoistedId C lp.2

/-- The `output.facadeModuleId as string` cast at line 111 (an absent
facade id casts to the empty string; `chunkIsPage` guarantees a non-empty
one for the outputs that reach `generatePage`). -/
def facadeIdOf : RollupOutputItem → String
  | RollupOutputItem.chunk _ fid => fid.getD ""
  | RollupOutputItem.asset _ => ""

/-- `output.fileName` (line 110). -/
def fileNameOf : RollupOutputItem → String
  | RollupOutputItem.chunk fileName _ => fileName
  | RollupOutputItem.asset fileName => fileName

/-- Lines 100-158 of generate.ts: `generatePage`.  Looks up the
`PageBuildData` by facade id — absence throws (lines 114-116), with no
surrounding catch.  Then it resolves `linkIds` (default `[]`) and
`hoistedId` (default `null`) from the internals tables (lines 118-119),
imports the compiled module (line 121, a load failure is fatal) and drives
every path of the page through `generatePath`, one `throttle` batch at a
time.  Returns the final `pageNames` content.  (Progress/time logging is
outside the model.) -/
def generatePage (output : RollupOutputItem) (internals : BuildInternalsModel)
    (facadeIdToPageDataMap : List (String × PageData)) (C : RenderCollaborators)
    (pageNames : List String) : Except String (List String) :=
  match getByFacadeId (facadeIdOf output) facadeIdToPageDataMap with
  | none =>
    Except.error ("Unable to find a PageBuildData for the Astro page: " ++ facadeIdOf output ++
      ". There are the PageBuildDatas we have " ++
      String.intercalate ", " (facadeIdToPageDataMap.map Prod.fst))
  | some pageData =>
    match C.importModule (fileNameOf output) with
    | Except.error e => Except.error e
    | Except.ok _ =>
      match goBatches pageData.routeType (throttle MAX_CONCURRENT_RENDERS pageData.paths)
          ((getByFacadeId (facadeIdOf output) internals.facadeIdToAssetsMap).getD [])
          (getByFacadeId (facadeIdOf output) internals.facadeIdToHoistedEntryMap)
          C pageNames with
      | Except.error e => Except.error e
      | Except.ok lp => Except.ok lp.2

/-- The loop of lines 93-97: every output accepted by `chunkIsPage` goes
through `generatePage`; nothing here catches its errors. -/
def generatePagesGo (outputs : List RollupOutputItem) (config : AstroConfigModel)
    (internals : BuildInternalsModel) (facadeIdToPageDataMap : List (String × PageData))
    (C : RenderCollaborators) (pageNames : List String) : Except String (List String) :=
  match outputs with
  | [] => Except.ok pageNames
  | o :: os =>
    if chunkIsPage config o internals then
      match generatePage o internals facadeIdToPageDataMap C pageNames with
      | Except.error e => Except.error e
      | Except.ok pn => generatePagesGo os config internals facadeIdToPageDataMap C pn
    else generatePagesGo os config internals facadeIdToPageDataMap C pageNames

/-- Lines 87-98 of generate.ts: `generatePages` — load the shared renderers
once (`loadRenderers`, line 91; a failure is fatal to the run), then iterate
the Rollup outputs.  Returns the final `opts.pageNames` content. -/
def generatePages (outputs : List RollupOutputItem) (config : AstroConfigModel)
    (internals : BuildInternalsModel) (facadeIdToPageDataMap : List (String × PageData))
    (loadRenderers : Except String Unit) (C : RenderCollaborators)
    (pageNames : List String) : Except String (List String) :=
  match loadRenderers with
  | Except.error e => Except.error e
  | Except.ok _ => generatePagesGo outputs config internals facadeIdToPageDataMap C pageNames

/-- A collaborator bundle in which every external call succeeds, used to
instantiate theorems at concrete inputs. -/
def allOkCollaborators : RenderCollaborators :=
  ⟨fun _ _ => Except.ok (),
   fun _ => Except.ok (EndpointCallResult.bodyPayload "body"),
   fun _ => Except.ok (RenderCallResult.html "html"),
   fun _ _ => Except.ok (),
   fun _ => Except.ok ()⟩

/-- A collaborator bundle whose endpoint call yields a live `Response`
result (everything else succeeds). -/
def endpointResponseCollaborators : RenderCollaborators :=
  ⟨fun _ _ => Except.ok (),
   fun _ => Except.ok EndpointCallResult.response,
   fun _ => Except.ok (RenderCallResult.html "html"),
   fun _ _ => Except.ok (),
   fun _ => Except.ok ()⟩

/-! ## Helper lemmas -/

/-- Appending strings appends their character data. -/
theorem strData_append (a b : String) : (a ++ b).data = a.data ++ b.data := by
  cases a; cases b; rfl

/-- Concatenating everything `throttleAux` yields gives the pending
accumulator followed by the remaining input. -/
theorem throttleAux_flatten (max : Nat) :
    ∀ (paths tmp : List String) (i : Nat),
      (throttleAux max paths tmp i).flatten = tmp ++ paths := by
  intro paths
  induction paths with
  | nil =>
    intro tmp i
    unfold throttleAux
    by_cases h : tmp.length ≠ 0
    · rw [if_pos h]; simp
    · rw [if_neg h]
      have htmp : tmp = [] := List.length_eq_zero.mp (not_not.mp (fun hc => h hc))
      simp [htmp]
  | cons p rest ih =>
    intro tmp i
    unfold throttleAux
    by_cases h : i = max
    · rw [if_pos h]; simp [ih]
    · rw [if_neg h]; rw [ih]; simp

/-- `sepSwap` maps the empty string, and only it, to the empty string. -/
theorem sepSwap_empty_iff (s : String) : sepSwap s = "" ↔ s = "" := by
  constructor
  · intro h
    have hd : s.data.map swapChar = ("" : String).data := congrArg String.data h
    have hnil : s.data = [] := List.map_eq_nil_iff.mp hd
    exact String.ext hnil
  · intro h
    rw [h]; rfl

/-- Whatever `relPath` is, `fullyRelative relPath` starts with a dot. -/
theorem fullyRelative_head (relPath : String) :
    (fullyRelative relPath).data.head? = some '.' := by
  unfold fullyRelative
  by_cases hd : relPath.data.head? = some '.'
  · rw [if_pos hd]; exact hd
  · rw [if_neg hd]
    rw [strData_append]
    rfl

/-! ## Claim theorems -/

/-- Claim C1 (code bug, evaluation at the failing input): the claim and the
spec say that for `maxSize = 1` and paths `["/a","/b","/c"]` the batcher
yields three single-element batches, and that every batch is at most
`maxSize` long.  The code's `throttle` instead yields `[["/a","/b"],["/c"]]`:
the size test `i === max` runs after the push while `i` is incremented only
on the else branch, so full batches hold `max + 1` paths — contradicting the
function's own comments (the remainder comment says fewer than `max` paths
are left at the end) and the concurrency-ceiling intent of
`MAX_CONCURRENT_RENDERS = 1`. -/
theorem C1_throttle_off_by_one :
    throttle 1 ["/a", "/b", "/c"] = [["/a", "/b"], ["/c"]] := rfl

/-- Claim C9 (confirmed): for every `maxSize ≥ 1` and every input path
sequence, concatenating the batches yielded by `throttle`, in yield order
and consumed single-pass, reproduces the input sequence exactly — same
elements, same order, no duplication, no omission. -/
theorem C9_throttle_concat_id (max : Nat) (paths : List String) (h : 1 ≤ max) :
    (throttle max paths).flatten = paths := by
  unfold throttle
  simpa using throttleAux_flatten max paths [] 0

/-- Witness for C9 at `maxSize = 2`, paths `["/a","/b","/c"]`. -/
theorem C9_witness :
    1 ≤ 2 ∧ (throttle 2 ["/a", "/b", "/c"]).flatten = ["/a", "/b", "/c"] :=
  ⟨by decide, C9_throttle_concat_id 2 ["/a", "/b", "/c"] (by decide)⟩

/-- Claim C5 (confirmed): for a specifier absent from the specifier table,
the render-time `resolve` returns the fixed inert placeholder when the
specifier is the reserved name `astro:scripts/before-hydration.js`, and for
every other absent specifier fails with an error whose message names the
missing specifier. -/
theorem C5_resolve_absent (m : List (String × String)) (pathname specifier : String)
    (h : List.lookup specifier m = none) :
    (specifier = "astro:scripts/before-hydration.js" →
      resolve m pathname specifier =
        Except.ok "data:text/javascript;charset=utf-8,//[no before-hydration script]") ∧
    (specifier ≠ "astro:scripts/before-hydration.js" →
      resolve m pathname specifier =
        Except.error ("Cannot find the built path for " ++ specifier)) := by
  unfold resolve
  rw [h]
  constructor
  · intro hs
    rw [if_pos hs]
  · intro hs
    rw [if_neg hs]

/-- Witness for C5: the reserved absent specifier succeeds with the
placeholder, any other absent specifier fails naming itself. -/
theorem C5_witness :
    resolve [] "/" "astro:scripts/before-hydration.js" =
      Except.ok "data:text/javascript;charset=utf-8,//[no before-hydration script]" ∧
    resolve [] "/" "missing.js" =
      Except.error ("Cannot find the built path for " ++ "missing.js") :=
  ⟨(C5_resolve_absent [] "/" "astro:scripts/before-hydration.js" rfl).1 rfl,
   (C5_resolve_absent [] "/" "missing.js" rfl).2 (by decide)⟩

/-- Claim C6 counterexample: the claim says every resolution of a present
specifier begins with `./` or `../`.  With the table entry
`("x", ".hidden")` and pathname `/`, `posix.relative` gives `.hidden`; its
first character is `.`, so the `relPath[0] === '.'` guard returns it
unchanged — a reference that begins with neither `./` nor `../`. -/
theorem C6_counterexample :
    resolve [("x", ".hidden")] "/" "x" = Except.ok ".hidden" ∧
    beginsWithRel ".hidden" = false := ⟨rfl, rfl⟩

/-- Claim C6 (corrected): for every specifier present in the specifier table
and every pathname, the returned reference begins with the character `.` —
it is `./`-prefixed whenever the computed relative path does not itself
begin with a dot, but a dot-initial target segment (such as a dotfile bundle
path) passes the `relPath[0] === '.'` guard unchanged, so the stronger
"begins with `./` or `../`" of the claim does not hold. -/
theorem C6_resolve_starts_with_dot (m : List (String × String))
    (pathname specifier hashedFilePath : String)
    (h : List.lookup specifier m = some hashedFilePath) :
    ∃ out, resolve m pathname specifier = Except.ok out ∧
      out.data.head? = some '.' := by
  refine ⟨fullyRelative (posixRelative pathname ("/" ++ hashedFilePath)), ?_, ?_⟩
  · unfold resolve
    rw [h]
  · exact fullyRelative_head _

/-- Witness for C6: a present specifier resolving across directories yields
a dot-initial relative reference. -/
theorem C6_witness :
    ∃ out, resolve [("x", "js/a.js")] "/about" "x" = Except.ok out ∧
      out.data.head? = some '.' :=
  C6_resolve_starts_with_dot [("x", "js/a.js")] "/about" "x" "js/a.js" rfl

/-- Claim C4 counterexample: the claim says both separator forms of the same
identifier resolve to the same record whenever either form is a key.  With
the map keyed by the forward-slash form `/a`, the forward-slash query hits
but the backslash query `\a` misses: `getByFacadeId` only retries the query
with slashes swapped to backslashes, never the other way around. -/
theorem C4_counterexample :
    getByFacadeId "/a" [("/a", "rec")] = some "rec" ∧
    sepSwap "/a" = "\\a" ∧
    getByFacadeId "\\a" [("/a", "rec")] = none := ⟨rfl, rfl, rfl⟩

/-- Claim C4 (corrected): the separator tolerance of `getByFacadeId` is
one-directional.  When the backslash form of an identifier is a key of the
map and its forward-slash form is not, both the forward-slash query and the
backslash query resolve to that same record; a map keyed only by the
forward-slash form is found only by the forward-slash query. -/
theorem C4_backslash_key_tolerated {T : Type} (map : List (String × T))
    (fid : String) (r : T)
    (hf : List.lookup fid map = none)
    (hb : List.lookup (sepSwap fid) map = some r) :
    getByFacadeId fid map = some r ∧ getByFacadeId (sepSwap fid) map = some r := by
  constructor
  · unfold getByFacadeId
    rw [hf, hb]
  · unfold getByFacadeId
    rw [hb]

/-- Witness for C4: a backslash-keyed map is found by both query forms. -/
theorem C4_witness :
    getByFacadeId "/a" [("\\a", "rec")] = some "rec" ∧
    getByFacadeId (sepSwap "/a") [("\\a", "rec")] = some "rec" :=
  C4_backslash_key_tolerated [("\\a", "rec")] "/a" "rec" rfl rfl

/-- Claim C3 counterexample: the claim says `chunkIsPage` is
path-separator-insensitive.  With project root `/root/` and a specifier map
keyed by `/src/pages/index.astro`, the forward-slash facade identifier
classifies as a page but its backslash twin does not: `chunkIsPage` derives
its lookup key without any separator normalization (the normalization of
line 41 lives only in `getByFacadeId`, which `chunkIsPage` does not use). -/
theorem C3_counterexample :
    chunkIsPage ⟨"/root/"⟩
      (RollupOutputItem.chunk "index.js" (some "/root/src/pages/index.astro"))
      ⟨[("/src/pages/index.astro", "entry.js")], [], []⟩ = true ∧
    sepSwap "/root/src/pages/index.astro" = "\\root\\src\\pages\\index.astro" ∧
    chunkIsPage ⟨"/root/"⟩
      (RollupOutputItem.chunk "index.js" (some "\\root\\src\\pages\\index.astro"))
      ⟨[("/src/pages/index.astro", "entry.js")], [], []⟩ = false :=
  ⟨rfl, rfl, rfl⟩

/-- Claim C3 (corrected): `chunkIsPage` applies no separator normalization,
so two artifacts identical except for `/` versus `\` in the facade
identifier classify identically exactly when the specifier map's membership
agrees on the two literally derived keys; without that agreement the
classifier is separator-sensitive (see the counterexample). -/
theorem C3_classifier_conditional (config : AstroConfigModel) (fileName fid : String)
    (internals : BuildInternalsModel)
    (h : (List.lookup (prependForwardSlash (rootRelativeFacadeId fid config))
            internals.entrySpecifierToBundleMap).isSome
       = (List.lookup (prependForwardSlash (rootRelativeFacadeId (sepSwap fid) config))
            internals.entrySpecifierToBundleMap).isSome) :
    chunkIsPage config (RollupOutputItem.chunk fileName (some fid)) internals =
    chunkIsPage config (RollupOutputItem.chunk fileName (some (sepSwap fid))) internals := by
  unfold chunkIsPage
  dsimp only
  by_cases hfid : fid = ""
  · have hswap : sepSwap fid = "" := (sepSwap_empty_iff fid).mpr hfid
    rw [if_pos hfid, if_pos hswap]
  · have hswap : sepSwap fid ≠ "" := fun hc => hfid ((sepSwap_empty_iff fid).mp hc)
    rw [if_neg hfid, if_neg hswap, h]

/-- Witness for C3: with an empty specifier map the two derived keys agree
on membership and both artifacts classify identically. -/
theorem C3_witness :
    chunkIsPage ⟨"/r/"⟩ (RollupOutputItem.chunk "a.js" (some "/r/a")) ⟨[], [], []⟩ =
    chunkIsPage ⟨"/r/"⟩ (RollupOutputItem.chunk "a.js" (some (sepSwap "/r/a"))) ⟨[], [], []⟩ :=
  C3_classifier_conditional ⟨"/r/"⟩ "a.js" "/r/a" ⟨[], [], []⟩ rfl

/-- A successful `generatePath` call always reverses the shared `linkIds`
array in place, hands exactly that reversed order to the stylesheet
element-set builder, and pushes the page name for `page` routes — whatever
its terminal outcome was. -/
theorem generatePath_ok_fields (pathname : String) (routeType : RouteType)
    (linkIds : List String) (hoistedId : Option String) (C : RenderCollaborators)
    (pageNames : List String) (r : PathCallResult)
    (h : generatePath pathname routeType linkIds hoistedId C pageNames = Except.ok r) :
    r.linksOrder = linkIds.reverse ∧ r.linkIds = linkIds.reverse ∧
    r.pageNames =
      (if routeType = RouteType.page then pageNames ++ [addPageName pathname]
       else pageNames) := by
  unfold generatePath at h
  cases hces : C.createElementSets linkIds.reverse hoistedId with
  | error e => rw [hces] at h; exact Except.noConfusion h
  | ok u =>
    rw [hces] at h
    cases htry : generatePathTry routeType pathname C with
    | ok o =>
      rw [htry] at h
      dsimp only at h
      cases h
      exact ⟨rfl, rfl, rfl⟩
    | error e =>
      rw [htry] at h
      dsimp only at h
      cases h
      exact ⟨rfl, rfl, rfl⟩

/-- Claim C2 counterexample: the claim says any error in the per-path steps,
including building the link/script element sets, is caught and swallowed at
the single-path boundary.  But the element sets are built at lines 185-196,
before the `try` block that starts at line 198: a failure there rejects
`generatePath` itself instead of being logged and swallowed. -/
theorem C2_counterexample :
    generatePath "/a" RouteType.page ["s1"] none
      ⟨fun _ _ => Except.error "boom",
       fun _ => Except.ok (EndpointCallResult.bodyPayload "body"),
       fun _ => Except.ok (RenderCallResult.html "html"),
       fun _ _ => Except.ok (),
       fun _ => Except.ok ()⟩
      [] = Except.error "boom" := rfl

/-- Claim C2 (corrected): every error raised inside the `try` block —
dispatching to render or endpoint invocation (including resolve failures
surfacing there) and writing the output file — is caught at the single-path
boundary and swallowed, so `generatePath` returns normally whenever the
element-set building step succeeds; the element-set building itself (and the
page-name push) runs before the `try` block, so its errors propagate. -/
theorem C2_inside_try_swallowed (pathname : String) (routeType : RouteType)
    (linkIds : List String) (hoistedId : Option String) (C : RenderCollaborators)
    (pageNames : List String)
    (h : C.createElementSets linkIds.reverse hoistedId = Except.ok ()) :
    ∃ r, generatePath pathname routeType linkIds hoistedId C pageNames = Except.ok r := by
  unfold generatePath
  rw [h]
  cases htry : generatePathTry routeType pathname C with
  | ok o => exact ⟨_, rfl⟩
  | error e => exact ⟨_, rfl⟩

/-- Witness for C2: with a succeeding element-set step, `generatePath`
returns normally (here all collaborators succeed). -/
theorem C2_witness :
    ∃ r, generatePath "/a" RouteType.page ["s1"] none allOkCollaborators [] =
      Except.ok r :=
  C2_inside_try_swallowed "/a" RouteType.page ["s1"] none allOkCollaborators [] rfl

/-- Claim C7 (confirmed): an endpoint route whose handler yields a
response-type result makes `generatePath` throw the unsupported-operation
error of line 239, and that error is caught at the per-path boundary: the
call resolves normally with a reported failure, so the path is skipped
without crashing the batch or the build. -/
theorem C7_endpoint_response_reported (pathname : String) (linkIds : List String)
    (hoistedId : Option String) (C : RenderCollaborators) (pageNames : List String)
    (hces : C.createElementSets linkIds.reverse hoistedId = Except.ok ())
    (hep : C.callEndpoint pathname = Except.ok EndpointCallResult.response) :
    generatePath pathname RouteType.endpoint linkIds hoistedId C pageNames =
      Except.ok ⟨PathOutcome.reportedFailure
          "Returning a Response from an endpoint is not supported in SSG mode.",
        linkIds.reverse, linkIds.reverse, pageNames⟩ := by
  have htry : generatePathTry RouteType.endpoint pathname C =
      Except.error "Returning a Response from an endpoint is not supported in SSG mode." := by
    unfold generatePathTry generatePathBody
    rw [hep]
  unfold generatePath
  rw [hces, htry]
  rfl

/-- Witness for C7 at a concrete endpoint path. -/
theorem C7_witness :
    generatePath "/e" RouteType.endpoint ["s"] none endpointResponseCollaborators [] =
      Except.ok ⟨PathOutcome.reportedFailure
          "Returning a Response from an endpoint is not supported in SSG mode.",
        List.reverse ["s"], List.reverse ["s"], []⟩ :=
  C7_endpoint_response_reported "/e" ["s"] none endpointResponseCollaborators [] rfl rfl

/-- Claim C10 (confirmed): every successful `generatePath` call reverses the
shared `linkIds` array of its `GeneratePathOptions` in place
(`linkIds.reverse()` at line 185 mutates and returns the shared array), so
two consecutive calls with identical arguments hand the stylesheet
element-set builder opposite orders — whenever the id list is not a
palindrome the two orders differ, so the link set built for a path is not a
function of the pathname and page metadata alone. -/
theorem C10_shared_linkIds_reversed (pathname : String) (routeType : RouteType)
    (linkIds : List String) (hoistedId : Option String) (C : RenderCollaborators)
    (pageNames : List String) (r₁ r₂ : PathCallResult)
    (h₁ : generatePath pathname routeType linkIds hoistedId C pageNames = Except.ok r₁)
    (h₂ : generatePath pathname routeType r₁.linkIds hoistedId C r₁.pageNames = Except.ok r₂) :
    r₁.linksOrder = linkIds.reverse ∧ r₁.linkIds = linkIds.reverse ∧
    r₂.linksOrder = r₁.linksOrder.reverse ∧
    (linkIds.reverse ≠ linkIds → r₁.linksOrder ≠ r₂.linksOrder) := by
  obtain ⟨ho₁, hi₁, -⟩ :=
    generatePath_ok_fields pathname routeType linkIds hoistedId C pageNames r₁ h₁
  obtain ⟨ho₂, -, -⟩ :=
    generatePath_ok_fields pathname routeType r₁.linkIds hoistedId C r₁.pageNames r₂ h₂
  refine ⟨ho₁, hi₁, ?_, ?_⟩
  · rw [ho₂, hi₁, ho₁]
  · intro hne
    rw [ho₁, ho₂, hi₁, List.reverse_reverse]
    exact hne

/-- Witness for C10: two consecutive calls on the shared id list
`["a", "b"]` use the orders `["b", "a"]` and then `["a", "b"]`. -/
theorem C10_witness :
    (⟨PathOutcome.written "html", ["b", "a"], ["b", "a"], ["p/"]⟩ :
        PathCallResult).linksOrder ≠
      (⟨PathOutcome.written "html", ["a", "b"], ["a", "b"], ["p/", "p/"]⟩ :
        PathCallResult).linksOrder :=
  (C10_shared_linkIds_reversed "/p" RouteType.page ["a", "b"] none allOkCollaborators []
      ⟨PathOutcome.written "html", ["b", "a"], ["b", "a"], ["p/"]⟩
      ⟨PathOutcome.written "html", ["a", "b"], ["a", "b"], ["p/", "p/"]⟩
      rfl rfl).2.2.2 (by decide)

/-- If some member of the output list is accepted by `chunkIsPage` but has
no `PageBuildData` under its facade id, the generation loop rejects: when
the loop reaches that artifact, `generatePage` throws before touching any
path, and no catch exists between that throw and the caller of
`generatePages` (an earlier artifact failing for another reason also
rejects the loop). -/
theorem generatePagesGo_error_of_missing (config : AstroConfigModel)
    (internals : BuildInternalsModel) (map : List (String × PageData))
    (C : RenderCollaborators) (o : RollupOutputItem)
    (hc : chunkIsPage config o internals = true)
    (hm : getByFacadeId (facadeIdOf o) map = none) :
    ∀ (outputs : List RollupOutputItem), o ∈ outputs → ∀ pageNames,
      ∃ e, generatePagesGo outputs config internals map C pageNames = Except.error e := by
  intro outputs
  induction outputs with
  | nil => intro ho pageNames; cases ho
  | cons x xs ih =>
    intro ho pageNames
    cases ho with
    | head =>
      have hgo : generatePagesGo (o :: xs) config internals map C pageNames =
          Except.error ("Unable to find a PageBuildData for the Astro page: " ++
            facadeIdOf o ++ ". There are the PageBuildDatas we have " ++
            String.intercalate ", " (map.map Prod.fst)) := by
        unfold generatePagesGo generatePage
        rw [hm, hc]
        rfl
      exact ⟨_, hgo⟩
    | tail _ hmem =>
      by_cases hx : chunkIsPage config x internals
      · cases hg : generatePage x internals map C pageNames with
        | error e => exact ⟨e, by unfold generatePagesGo; simp [hx, hg]⟩
        | ok pn =>
          obtain ⟨e, he⟩ := ih hmem pn
          exact ⟨e, by unfold generatePagesGo; simp [hx, hg, he]⟩
      · obtain ⟨e, he⟩ := ih hmem pageNames
        exact ⟨e, by unfold generatePagesGo; simp [hx, he]⟩

/-- Claim C8 (confirmed): if a build artifact accepted by `chunkIsPage` has
a facade identifier with no `PageBuildData` in the facade index, the whole
`generatePages` run fails with an error — nothing between the throw at
lines 114-116 and the caller of `generatePages` catches it, so it is not a
per-path failure and the run aborts. -/
theorem C8_missing_page_data_fatal (outputs : List RollupOutputItem)
    (config : AstroConfigModel) (internals : BuildInternalsModel)
    (facadeIdToPageDataMap : List (String × PageData))
    (loadRenderers : Except String Unit) (C : RenderCollaborators)
    (pageNames : List String) (o : RollupOutputItem)
    (ho : o ∈ outputs)
    (hc : chunkIsPage config o internals = true)
    (hm : getByFacadeId (facadeIdOf o) facadeIdToPageDataMap = none) :
    ∃ e, generatePages outputs config internals facadeIdToPageDataMap
        loadRenderers C pageNames = Except.error e := by
  cases loadRenderers with
  | error e => exact ⟨e, rfl⟩
  | ok u =>
    show ∃ e, generatePagesGo outputs config internals facadeIdToPageDataMap C pageNames =
      Except.error e
    exact generatePagesGo_error_of_missing config internals facadeIdToPageDataMap C o
      hc hm outputs ho pageNames

/-- Witness for C8: one accepted chunk whose facade id is missing from the
page-data map makes the whole run fail. -/
theorem C8_witness :
    ∃ e, generatePages [RollupOutputItem.chunk "a.js" (some "/r/sub/a.astro")] ⟨"/r/"⟩
        ⟨[("/sub/a.astro", "bundle.js")], [], []⟩ [] (Except.ok ()) allOkCollaborators [] =
      Except.error e :=
  C8_missing_page_data_fatal [RollupOutputItem.chunk "a.js" (some "/r/sub/a.astro")] ⟨"/r/"⟩
    ⟨[("/sub/a.astro", "bundle.js")], [], []⟩ [] (Except.ok ()) allOkCollaborators []
    (RollupOutputItem.chunk "a.js" (some "/r/sub/a.astro"))
    (List.mem_singleton.mpr rfl) rfl rfl
